import Mathlib

/-!
# Verification of the AHardwareBuffer contract

Shallow embedding of `src/include/android/hardware_buffer.h` from the
repository `ArsenalsOs/aos_frameworks_native`, together with a model,
built from the specification, of the reference-counted shared-buffer
semantics the header documents.  The repository ships only the public
header (enumerations, the descriptor struct and nine prototypes); the
allocator, locking and transport implementations live in platform code
that is not part of the repository, so every behavioural definition
below is modelled from the spec and is marked as such in its doc
comment.  The enumeration constants and the descriptor layout are taken
directly from the header.
-/

namespace HardwareBuffer

/-! ## Pixel format constants (hardware_buffer.h lines 35-76) -/

def AHARDWAREBUFFER_FORMAT_R8G8B8A8_UNORM : Nat := 1

def AHARDWAREBUFFER_FORMAT_R8G8B8X8_UNORM : Nat := 2

def AHARDWAREBUFFER_FORMAT_R8G8B8_UNORM : Nat := 3

def AHARDWAREBUFFER_FORMAT_R5G6B5_UNORM : Nat := 4

def AHARDWAREBUFFER_FORMAT_R16G16B16A16_SFLOAT : Nat := 0x16

def AHARDWAREBUFFER_FORMAT_BLOB : Nat := 0x21

/-! ## Usage flag constants (hardware_buffer.h lines 78-107) -/

def AHARDWAREBUFFER_USAGE0_CPU_READ : Nat := 1 <<< 1

def AHARDWAREBUFFER_USAGE0_CPU_READ_OFTEN : Nat :=
  (1 <<< 2) ||| AHARDWAREBUFFER_USAGE0_CPU_READ

def AHARDWAREBUFFER_USAGE0_CPU_WRITE : Nat := 1 <<< 5

def AHARDWAREBUFFER_USAGE0_CPU_WRITE_OFTEN : Nat :=
  (1 <<< 6) ||| AHARDWAREBUFFER_USAGE0_CPU_WRITE

def AHARDWAREBUFFER_USAGE0_GPU_SAMPLED_IMAGE : Nat := 1 <<< 10

def AHARDWAREBUFFER_USAGE0_GPU_COLOR_OUTPUT : Nat := 1 <<< 11

def AHARDWAREBUFFER_USAGE0_GPU_STORAGE_IMAGE : Nat :=
  AHARDWAREBUFFER_USAGE0_GPU_SAMPLED_IMAGE |||
    AHARDWAREBUFFER_USAGE0_GPU_COLOR_OUTPUT

def AHARDWAREBUFFER_USAGE0_GPU_CUBEMAP : Nat := 1 <<< 13

def AHARDWAREBUFFER_USAGE0_GPU_DATA_BUFFER : Nat := 1 <<< 14

def AHARDWAREBUFFER_USAGE0_PROTECTED_CONTENT : Nat := 1 <<< 18

def AHARDWAREBUFFER_USAGE0_SENSOR_DIRECT_DATA : Nat := 1 <<< 29

def AHARDWAREBUFFER_USAGE0_VIDEO_ENCODE : Nat := 1 <<< 21

/-- The twelve usage0 flag constants of the header, as a named vocabulary. -/
inductive Usage0Flag where
  | cpu_read
  | cpu_read_often
  | cpu_write
  | cpu_write_often
  | gpu_sampled_image
  | gpu_color_output
  | gpu_storage_image
  | gpu_cubemap
  | gpu_data_buffer
  | protected_content
  | sensor_direct_data
  | video_encode
deriving DecidableEq, Repr

/-- Numeric value of each usage0 flag constant, read off the header. -/
def flagValue : Usage0Flag → Nat
  | .cpu_read => AHARDWAREBUFFER_USAGE0_CPU_READ
  | .cpu_read_often => AHARDWAREBUFFER_USAGE0_CPU_READ_OFTEN
  | .cpu_write => AHARDWAREBUFFER_USAGE0_CPU_WRITE
  | .cpu_write_often => AHARDWAREBUFFER_USAGE0_CPU_WRITE_OFTEN
  | .gpu_sampled_image => AHARDWAREBUFFER_USAGE0_GPU_SAMPLED_IMAGE
  | .gpu_color_output => AHARDWAREBUFFER_USAGE0_GPU_COLOR_OUTPUT
  | .gpu_storage_image => AHARDWAREBUFFER_USAGE0_GPU_STORAGE_IMAGE
  | .gpu_cubemap => AHARDWAREBUFFER_USAGE0_GPU_CUBEMAP
  | .gpu_data_buffer => AHARDWAREBUFFER_USAGE0_GPU_DATA_BUFFER
  | .protected_content => AHARDWAREBUFFER_USAGE0_PROTECTED_CONTENT
  | .sensor_direct_data => AHARDWAREBUFFER_USAGE0_SENSOR_DIRECT_DATA
  | .video_encode => AHARDWAREBUFFER_USAGE0_VIDEO_ENCODE

/-- All twelve usage0 flag constants. -/
def allUsage0Flags : List Usage0Flag :=
  [.cpu_read, .cpu_read_often, .cpu_write, .cpu_write_often,
   .gpu_sampled_image, .gpu_color_output, .gpu_storage_image,
   .gpu_cubemap, .gpu_data_buffer, .protected_content,
   .sensor_direct_data, .video_encode]

/-- Bitwise OR of a set (list) of usage0 flag constants. -/
def orOfFlags (l : List Usage0Flag) : Nat :=
  l.foldr (fun f acc => flagValue f ||| acc) 0

/-- The eleven bit positions occupied by the usage0 flag constants. -/
def usage0BitPositions : List Nat :=
  [1, 2, 5, 6, 10, 11, 13, 14, 18, 21, 29]

/-- The nine single-bit (non-composite) usage0 flag constants. -/
def atomicUsage0Flags : List Usage0Flag :=
  [.cpu_read, .cpu_write, .gpu_sampled_image, .gpu_color_output,
   .gpu_cubemap, .gpu_data_buffer, .protected_content,
   .sensor_direct_data, .video_encode]

/-- Bitwise OR of a selection of the nine single-bit usage0 flags, the
selection given by one Boolean per flag. -/
def orOfAtomicSelection (r w s c cm db p sd v : Bool) : Nat :=
  (if r then AHARDWAREBUFFER_USAGE0_CPU_READ else 0) |||
  (if w then AHARDWAREBUFFER_USAGE0_CPU_WRITE else 0) |||
  (if s then AHARDWAREBUFFER_USAGE0_GPU_SAMPLED_IMAGE else 0) |||
  (if c then AHARDWAREBUFFER_USAGE0_GPU_COLOR_OUTPUT else 0) |||
  (if cm then AHARDWAREBUFFER_USAGE0_GPU_CUBEMAP else 0) |||
  (if db then AHARDWAREBUFFER_USAGE0_GPU_DATA_BUFFER else 0) |||
  (if p then AHARDWAREBUFFER_USAGE0_PROTECTED_CONTENT else 0) |||
  (if sd then AHARDWAREBUFFER_USAGE0_SENSOR_DIRECT_DATA else 0) |||
  (if v then AHARDWAREBUFFER_USAGE0_VIDEO_ENCODE else 0)

/-- Recover, from a usage0 mask, which of the nine single-bit flags are
present, by testing each flag's bit. -/
def decodeAtomicSelection (m : Nat) :
    Bool × Bool × Bool × Bool × Bool × Bool × Bool × Bool × Bool :=
  (m.testBit 1, m.testBit 5, m.testBit 10, m.testBit 11, m.testBit 13,
   m.testBit 14, m.testBit 18, m.testBit 29, m.testBit 21)

/-- The four CPU usage0 flag constants (the CPU-read/CPU-write subset). -/
def cpuFlags : List Usage0Flag :=
  [.cpu_read, .cpu_read_often, .cpu_write, .cpu_write_often]

/-- The union of the bits of the CPU-read/CPU-write usage0 flags: the only
usage bits `AHardwareBuffer_lock` accepts (header lines 163-165). -/
def cpuUsageMask : Nat :=
  AHARDWAREBUFFER_USAGE0_CPU_READ ||| AHARDWAREBUFFER_USAGE0_CPU_READ_OFTEN |||
  AHARDWAREBUFFER_USAGE0_CPU_WRITE ||| AHARDWAREBUFFER_USAGE0_CPU_WRITE_OFTEN

/-! ## Reference counting (modelled from the spec)

The implementation of `AHardwareBuffer_acquire` and
`AHardwareBuffer_release` is not under `src/`: the header only declares
the prototypes (lines 129-139).  The model below follows the spec, §3
"SharedBuffer" and §4.2 "Reference counting". -/

/-- Modelled from the spec: the per-buffer state of the reference-counting
protocol: the reference count, plus a counter of how many times the
underlying backend resource has been released (so that
no-double-free/no-leak is statable). -/
structure RCState where
  refCount : Nat
  backendReleases : Nat
deriving DecidableEq, Repr

/-- A reference-counting call on one buffer handle. -/
inductive RCOp where
  | acquire
  | release
deriving DecidableEq, Repr

/-- Modelled from the spec: §4.2.  `acquire` increments the count;
`release` decrements it and, exactly at the transition of the count from
1 to 0, frees the backend resource.  Any call on a fully released handle
(count 0) is undefined by contract ("callers must not retain a handle
across its final release") and is modelled as `none`. -/
def rcStep (s : RCState) : RCOp → Option RCState
  | .acquire =>
      if s.refCount = 0 then none
      else some { s with refCount := s.refCount + 1 }
  | .release =>
      if s.refCount = 0 then none
      else if s.refCount = 1 then
        some { refCount := 0, backendReleases := s.backendReleases + 1 }
      else some { s with refCount := s.refCount - 1 }

/-- Run a sequence of reference-counting calls on one handle. -/
def rcRun (s : RCState) : List RCOp → Option RCState
  | [] => some s
  | op :: ops =>
      match rcStep s op with
      | none => none
      | some s1 => rcRun s1 ops

/-- Number of `acquire` calls in a call sequence. -/
def numAcquires : List RCOp → Nat
  | [] => 0
  | .acquire :: ops => numAcquires ops + 1
  | .release :: ops => numAcquires ops

/-- Number of `release` calls in a call sequence. -/
def numReleases : List RCOp → Nat
  | [] => 0
  | .acquire :: ops => numReleases ops
  | .release :: ops => numReleases ops + 1

/-! ## Descriptor, status codes and the observable state -/

/-- The descriptor struct `AHardwareBuffer_Desc` (hardware_buffer.h lines
109-116).  The C fields are `uint32_t`/`uint64_t`; none of the claims
under verification involve arithmetic overflow on them, so the fields are
embedded as `Nat`. -/
structure AHardwareBuffer_Desc where
  width : Nat
  height : Nat
  layers : Nat
  usage0 : Nat
  usage1 : Nat
  format : Nat
deriving DecidableEq, Repr

/-- Status codes of the error taxonomy (spec §7, header return values):
`NO_ERROR` is success, `BAD_VALUE` is the header's InvalidArgument,
`NO_MEMORY` is the backend allocation/lock failure, `TRANSPORT_FAILURE`
is a channel failure. -/
inductive Status where
  | NO_ERROR
  | BAD_VALUE
  | NO_MEMORY
  | TRANSPORT_FAILURE
deriving DecidableEq, Repr

/-- Modelled from the spec: a backend allocation: the raw bytes of the
graphics memory, keyed in the backend store by a backend id. -/
structure BackendBuf where
  bytes : List Nat
deriving DecidableEq, Repr

/-- Modelled from the spec: §3 "SharedBuffer": the immutable descriptor,
the opaque backend resource id, and the reference count. -/
structure SharedBuffer where
  desc : AHardwareBuffer_Desc
  backendId : Nat
  refCount : Nat
deriving DecidableEq, Repr

/-- Modelled from the spec: the observable state of the component: live
SharedBuffers keyed by handle, backend allocations keyed by backend id,
and the handles currently holding a CPU mapping. -/
structure World where
  nextHandle : Nat
  nextBackendId : Nat
  buffers : List (Nat × SharedBuffer)
  backendStore : List (Nat × BackendBuf)
  mappings : List Nat
deriving DecidableEq, Repr

/-- The `ARect` region parameter of `AHardwareBuffer_lock`.  Its struct
lives in `android/rect.h`, which is not under `src/`; modelled from the
spec ("`region`, if present, bounds the area the caller promises to
touch") with left/top inclusive and right/bottom exclusive bounds. -/
structure ARect where
  left : Nat
  top : Nat
  right : Nat
  bottom : Nat
deriving DecidableEq, Repr

/-- Modelled from the spec: §4.6/§6: the wire message of the cross-process
transfer: the descriptor metadata plus the backend resource identity; the
buffer contents are not serialized. -/
structure WireMessage where
  desc : AHardwareBuffer_Desc
  backendId : Nat
deriving DecidableEq, Repr

/-- The pixel format registry of the header. -/
def validFormats : List Nat :=
  [AHARDWAREBUFFER_FORMAT_R8G8B8A8_UNORM, AHARDWAREBUFFER_FORMAT_R8G8B8X8_UNORM,
   AHARDWAREBUFFER_FORMAT_R8G8B8_UNORM, AHARDWAREBUFFER_FORMAT_R5G6B5_UNORM,
   AHARDWAREBUFFER_FORMAT_R16G16B16A16_SFLOAT, AHARDWAREBUFFER_FORMAT_BLOB]

/-- Bytes per pixel of each non-BLOB format (RGBA8 and RGBX8 are 4 bytes,
RGB8 is 3, RGB565 is 2, RGBA16F is 8); BLOB is an opaque byte stream. -/
def bytesPerPixel (format : Nat) : Nat :=
  if format = AHARDWAREBUFFER_FORMAT_R8G8B8A8_UNORM then 4
  else if format = AHARDWAREBUFFER_FORMAT_R8G8B8X8_UNORM then 4
  else if format = AHARDWAREBUFFER_FORMAT_R8G8B8_UNORM then 3
  else if format = AHARDWAREBUFFER_FORMAT_R5G6B5_UNORM then 2
  else if format = AHARDWAREBUFFER_FORMAT_R16G16B16A16_SFLOAT then 8
  else 1

/-- Modelled from the spec: descriptor well-formedness (§3, §7): the
reserved `usage1` mask must be zero, `layers ≥ 1`, the format must be in
the registry, and a BLOB descriptor must have height 1 (header lines
71-75). -/
def validDesc (d : AHardwareBuffer_Desc) : Bool :=
  decide (d.usage1 = 0) && decide (1 ≤ d.layers) &&
  decide (d.format ∈ validFormats) &&
  (decide (d.format ≠ AHARDWAREBUFFER_FORMAT_BLOB) || decide (d.height = 1))

/-- Size in bytes of the backend allocation for a descriptor: for BLOB the
width is the byte length (header lines 71-75), otherwise
width × height × layers × bytes-per-pixel. -/
def allocSize (d : AHardwareBuffer_Desc) : Nat :=
  if d.format = AHARDWAREBUFFER_FORMAT_BLOB then d.width
  else d.width * d.height * d.layers * bytesPerPixel d.format

/-! ## The nine operations (modelled from the spec)

The bodies of the nine prototypes are not under `src/`; each operation
below is modelled from the spec section named in its doc comment.  Each
backend/channel interaction whose success is a collaborator decision is
abstracted by a Boolean oracle argument. -/

/-- Modelled from the spec: `AHardwareBuffer_allocate` (§4.1): validate
the descriptor; ask the backend (success abstracted by the oracle
`backendOk`) for the memory; on success return a fresh handle whose new
SharedBuffer has reference count 1 and a zero-filled backend allocation;
on any failure return the error status with no handle and the state
unchanged. -/
def allocate (backendOk : Bool) (d : AHardwareBuffer_Desc) (w : World) :
    Status × Option Nat × World :=
  if validDesc d then
    if backendOk then
      (.NO_ERROR, some w.nextHandle,
        { nextHandle := w.nextHandle + 1
          nextBackendId := w.nextBackendId + 1
          buffers := (w.nextHandle,
            { desc := d, backendId := w.nextBackendId, refCount := 1 }) :: w.buffers
          backendStore := (w.nextBackendId,
            { bytes := List.replicate (allocSize d) 0 }) :: w.backendStore
          mappings := w.mappings })
    else (.NO_MEMORY, none, w)
  else (.BAD_VALUE, none, w)

/-- Modelled from the spec: `AHardwareBuffer_describe` (§4.3): a pure
read returning a value copy of the live handle's descriptor; the world
is not an output because nothing is mutated. -/
def describe (w : World) (h : Nat) : Option AHardwareBuffer_Desc :=
  (List.lookup h w.buffers).map SharedBuffer.desc

/-- Modelled from the spec: `AHardwareBuffer_lock` (§4.4, header lines
148-182): fails with `BAD_VALUE` on a dead handle or when `usage0` is not
a combination of the `AHARDWAREBUFFER_USAGE0_CPU_*` flags; otherwise asks
the backend (oracle `backendOk`) to map, recording the mapping and
returning the process-local address (modelled as the opaque handle
value).  The fence only affects blocking, never the result, and the
region only constrains the caller's writes, so neither changes the state
here. -/
def lock (backendOk : Bool) (w : World) (h : Nat) (usage0 : Nat)
    (_fence : Int) (_rect : Option ARect) : Status × Option Nat × World :=
  match List.lookup h w.buffers with
  | none => (.BAD_VALUE, none, w)
  | some _ =>
      if usage0 &&& cpuUsageMask = usage0 then
        if backendOk then
          (.NO_ERROR, some h, { w with mappings := h :: w.mappings })
        else (.NO_MEMORY, none, w)
      else (.BAD_VALUE, none, w)

/-- Modelled from the spec: `AHardwareBuffer_unlock` (§4.5): fails with
`BAD_VALUE` on a dead or unmapped handle; otherwise removes the mapping
and, on success, hands out a fence token (modelled opaquely as 0) the
caller owns. -/
def unlock (backendOk : Bool) (w : World) (h : Nat) :
    Status × Option Int × World :=
  match List.lookup h w.buffers with
  | none => (.BAD_VALUE, none, w)
  | some _ =>
      if h ∈ w.mappings then
        if backendOk then
          (.NO_ERROR, some 0, { w with mappings := w.mappings.erase h })
        else (.NO_MEMORY, none, w)
      else (.BAD_VALUE, none, w)

/-- Modelled from the spec: `AHardwareBuffer_sendHandleToUnixSocket`
(§4.6): serializes the descriptor metadata and the backend resource
identity (not the contents) over the channel (oracle `channelOk`); the
sender's state is never changed. -/
def sendOverChannel (channelOk : Bool) (w : World) (h : Nat) :
    Status × Option WireMessage × World :=
  match List.lookup h w.buffers with
  | none => (.BAD_VALUE, none, w)
  | some buf =>
      if channelOk then (.NO_ERROR, some ⟨buf.desc, buf.backendId⟩, w)
      else (.TRANSPORT_FAILURE, none, w)

/-- Modelled from the spec: `AHardwareBuffer_recvHandleFromUnixSocket`
(§4.6): reconstructs, from the transferred metadata, a SharedBuffer with
reference count 1 over the same backend resource, independent of the
sender's count; on a channel failure nothing is constructed. -/
def receiveFromChannel (channelOk : Bool) (w : World) (msg : Option WireMessage) :
    Status × Option Nat × World :=
  match msg with
  | none => (.BAD_VALUE, none, w)
  | some m =>
      if channelOk then
        (.NO_ERROR, some w.nextHandle,
          { w with
            nextHandle := w.nextHandle + 1
            buffers := (w.nextHandle,
              { desc := m.desc, backendId := m.backendId, refCount := 1 }) :: w.buffers })
      else (.TRANSPORT_FAILURE, none, w)

/-- The backend bytes a live handle refers to. -/
def readBytes (w : World) (h : Nat) : Option (List Nat) :=
  match List.lookup h w.buffers with
  | none => none
  | some buf => (List.lookup buf.backendId w.backendStore).map BackendBuf.bytes

/-! ## Content of a lock / write / unlock episode (modelled from the spec) -/

/-- A single caller write of one byte at pixel coordinate (x, y). -/
structure PixelWrite where
  x : Nat
  y : Nat
  val : Nat
deriving DecidableEq, Repr

/-- Membership of a coordinate in a lock region. -/
def inRect (r : ARect) (x y : Nat) : Bool :=
  decide (r.left ≤ x) && decide (x < r.right) &&
  decide (r.top ≤ y) && decide (y < r.bottom)

/-- One caller write into the row-major byte store of a buffer of the
given width. -/
def writePixel (width : Nat) (bytes : List Nat) (pw : PixelWrite) : List Nat :=
  bytes.set (pw.x + width * pw.y) pw.val

/-- All caller writes of a lock interval, applied in order. -/
def applyWrites (width : Nat) (ws : List PixelWrite) (bytes : List Nat) : List Nat :=
  ws.foldl (writePixel width) bytes

/-- Modelled from the spec: the net content effect of a
`lock(rect) … caller writes … unlock` episode.  Lock and unlock do not
themselves modify the content ("The content of the buffer outside of the
specified rect is NOT modified by this call", header lines 160-161), so
the episode's effect is exactly the caller's writes. -/
def lockWritesUnlockContent (width : Nat) (ws : List PixelWrite)
    (bytes : List Nat) : List Nat :=
  applyWrites width ws bytes

/-! ## Concrete sample inputs used by the witnesses -/

/-- The empty observable state. -/
def emptyWorld : World :=
  { nextHandle := 0, nextBackendId := 0, buffers := [],
    backendStore := [], mappings := [] }

/-- A well-formed RGBA8 descriptor. -/
def sampleDesc : AHardwareBuffer_Desc :=
  { width := 4, height := 4, layers := 1,
    usage0 := AHARDWAREBUFFER_USAGE0_CPU_READ, usage1 := 0,
    format := AHARDWAREBUFFER_FORMAT_R8G8B8A8_UNORM }

/-- The state after allocating `sampleDesc` in the empty state. -/
def sampleWorld : World := (allocate true sampleDesc emptyWorld).2.2

/-- A well-formed BLOB descriptor of 5 bytes. -/
def sampleBlobDesc : AHardwareBuffer_Desc :=
  { width := 5, height := 1, layers := 1, usage0 := 0, usage1 := 0,
    format := AHARDWAREBUFFER_FORMAT_BLOB }

/-- The state after allocating `sampleBlobDesc` in the empty state. -/
def blobWorld : World := (allocate true sampleBlobDesc emptyWorld).2.2

end HardwareBuffer

namespace HardwareBuffer

/-! ## Helper lemmas -/

/-- If the bits of `a` are contained in `b` (i.e. `b &&& a = a`), then any
mask containing all bits of `b` also contains all bits of `a`. -/
theorem land_superset {a b : Nat} (hab : b &&& a = a) (m : Nat)
    (hm : m &&& b = b) : m &&& a = a := by
  calc m &&& a = m &&& (b &&& a) := by rw [hab]
    _ = m &&& b &&& a := (Nat.land_assoc m b a).symm
    _ = b &&& a := by rw [hm]
    _ = a := hab

/-- A mask containing all bits of `v` has every bit `v` has. -/
theorem testBit_of_land_self {m v : Nat} (h : m &&& v = v) (i : Nat)
    (hv : v.testBit i = true) : m.testBit i = true := by
  have h2 := congrArg (fun x => Nat.testBit x i) h
  simp only [Nat.testBit_land] at h2
  rw [hv, Bool.and_true] at h2
  exact h2

/-- A mask with a bit outside `mask` is not contained in `mask`. -/
theorem land_mask_ne {m mask : Nat} (i : Nat) (hm : m.testBit i = true)
    (hmask : mask.testBit i = false) : m &&& mask ≠ m := by
  intro h
  have h2 := congrArg (fun x => Nat.testBit x i) h
  simp only [Nat.testBit_land] at h2
  rw [hm, hmask] at h2
  simp at h2

/-- On a fully released handle every reference-counting call is
undefined. -/
theorem rcStep_zero {s : RCState} (h0 : s.refCount = 0) (op : RCOp) :
    rcStep s op = none := by
  cases op <;> simp [rcStep, h0]

/-- A run from a fully released handle can only be the empty run. -/
theorem rcRun_zero_stuck (ops : List RCOp) (s s' : RCState)
    (h0 : s.refCount = 0) (h : rcRun s ops = some s') :
    ops = [] ∧ s' = s := by
  cases ops with
  | nil => exact ⟨rfl, by simpa [rcRun] using h.symm⟩
  | cons op ops => simp [rcRun, rcStep_zero h0] at h

/-- Count invariant of a successful run starting from a live,
not-yet-released handle: the final count balances the acquires against
the releases, and the backend has been released exactly once if the
final count is zero and not at all otherwise. -/
theorem rcRun_count_invariant (ops : List RCOp) :
    ∀ s s' : RCState, 0 < s.refCount → s.backendReleases = 0 →
    rcRun s ops = some s' →
    s'.refCount + numReleases ops = s.refCount + numAcquires ops ∧
    s'.backendReleases = (if s'.refCount = 0 then 1 else 0) := by
  induction ops with
  | nil =>
    intro s s' hc hr h
    have hs : s' = s := by simpa [rcRun] using h.symm
    subst hs
    refine ⟨by simp [numAcquires, numReleases], ?_⟩
    rw [if_neg (Nat.pos_iff_ne_zero.mp hc)]
    exact hr
  | cons op ops ih =>
    intro s s' hc hr h
    cases op with
    | acquire =>
      have hstep : rcStep s .acquire =
          some { s with refCount := s.refCount + 1 } := by
        simp [rcStep, Nat.pos_iff_ne_zero.mp hc]
      rw [rcRun, hstep] at h
      obtain ⟨h1, h2⟩ := ih _ s' (by simp) (by simpa using hr) h
      refine ⟨?_, h2⟩
      simp only [numAcquires, numReleases] at h1 ⊢
      omega
    | release =>
      by_cases hone : s.refCount = 1
      · have hstep : rcStep s .release =
            some { refCount := 0, backendReleases := s.backendReleases + 1 } := by
          simp [rcStep, hone]
        rw [rcRun, hstep] at h
        obtain ⟨hnil, hs⟩ := rcRun_zero_stuck ops _ s' rfl h
        subst hnil
        subst hs
        refine ⟨by simp [numAcquires, numReleases, hone], by simp [hr]⟩
      · have htwo : 2 ≤ s.refCount := by omega
        have hstep : rcStep s .release =
            some { s with refCount := s.refCount - 1 } := by
          simp [rcStep, Nat.pos_iff_ne_zero.mp hc, hone]
        rw [rcRun, hstep] at h
        obtain ⟨h1, h2⟩ := ih _ s' (by simp; omega) (by simpa using hr) h
        refine ⟨?_, h2⟩
        simp only [numAcquires, numReleases] at h1 ⊢
        omega

/-- Running a concatenation runs the first part, then the second. -/
theorem rcRun_append (p q : List RCOp) :
    ∀ s : RCState, rcRun s (p ++ q) =
      match rcRun s p with
      | none => none
      | some m => rcRun m q := by
  induction p with
  | nil => intro s; simp [rcRun]
  | cons op p ih =>
    intro s
    cases hstep : rcStep s op with
    | none => simp [rcRun, hstep]
    | some s1 => simp [rcRun, hstep, ih s1]

/-- Row-major flat indices of in-width coordinates are injective. -/
theorem flatIndex_inj {width x y px py : Nat} (hx : x < width)
    (hpx : px < width) (h : x + width * y = px + width * py) :
    x = px ∧ y = py := by
  have h1 : x % width = px % width := by
    have h2 := congrArg (fun n => n % width) h
    simpa [Nat.add_mul_mod_self_left] using h2
  have hxpx : x = px := by
    rwa [Nat.mod_eq_of_lt hx, Nat.mod_eq_of_lt hpx] at h1
  subst hxpx
  have h3 : width * y = width * py := by omega
  have hw : 0 < width := Nat.lt_of_le_of_lt (Nat.zero_le x) hx
  exact ⟨rfl, Nat.eq_of_mul_eq_mul_left hw h3⟩

end HardwareBuffer

namespace HardwareBuffer

/-! ## The claims -/

/-- C1: for every buffer handle and every N ≥ 0, any interleaving of N
`acquire` calls and N+1 `release` calls that respects the contract (the
run is defined, i.e. no call lands on a fully released handle) releases
the backend resource exactly once — no double free, no leak — and only
at the very last call, the transition of the count from 1 to 0: after
every proper prefix the backend is still unreleased. -/
theorem refcount_release_exactly_once (N : Nat) (ops : List RCOp) (s' : RCState)
    (hA : numAcquires ops = N) (hR : numReleases ops = N + 1)
    (h : rcRun { refCount := 1, backendReleases := 0 } ops = some s') :
    s'.backendReleases = 1 ∧ s'.refCount = 0 ∧
    (∀ p q : List RCOp, ops = p ++ q → q ≠ [] →
      ∀ m : RCState, rcRun { refCount := 1, backendReleases := 0 } p = some m →
        m.backendReleases = 0) := by
  obtain ⟨h1, h2⟩ := rcRun_count_invariant ops
    { refCount := 1, backendReleases := 0 } s' (by simp) rfl h
  simp only [hA, hR] at h1
  have hzero : s'.refCount = 0 := by
    omega
  refine ⟨by rw [h2, if_pos hzero], hzero, ?_⟩
  intro p q hpq hq m hm
  rw [hpq, rcRun_append] at h
  rw [hm] at h
  have hmpos : m.refCount ≠ 0 := by
    intro hm0
    obtain ⟨hqnil, _⟩ := rcRun_zero_stuck q m s' hm0 h
    exact hq hqnil
  obtain ⟨_, hp2⟩ := rcRun_count_invariant p
    { refCount := 1, backendReleases := 0 } m (by simp) rfl hm
  rw [hp2, if_neg hmpos]

/-- Witness for C1: N = 1 with the interleaving acquire, release,
release: the run ends fully released with the backend released exactly
once. -/
theorem refcount_release_exactly_once_witness :
    rcRun { refCount := 1, backendReleases := 0 }
        [RCOp.acquire, RCOp.release, RCOp.release] =
      some { refCount := 0, backendReleases := 1 } ∧
    RCState.backendReleases { refCount := 0, backendReleases := 1 } = 1 := by
  refine ⟨by decide, ?_⟩
  exact (refcount_release_exactly_once 1 [RCOp.acquire, RCOp.release, RCOp.release]
    { refCount := 0, backendReleases := 1 } (by decide) (by decide) (by decide)).1

/-- C2: for every descriptor accepted by `allocate` (it returns a
handle), `describe` on that handle returns exactly the input descriptor.
`describe` returns the descriptor by value (its type is a pure
`Option AHardwareBuffer_Desc` and the world is not even an output), so a
caller mutating the returned copy cannot affect the live buffer's
descriptor: descriptors are immutable values in this embedding. -/
theorem allocate_describe_roundtrip (ok : Bool) (d : AHardwareBuffer_Desc)
    (w : World) (st : Status) (h : Nat) (w' : World)
    (halloc : allocate ok d w = (st, some h, w')) :
    describe w' h = some d := by
  by_cases hv : validDesc d
  · cases ok with
    | false => simp [allocate, hv] at halloc
    | true =>
      simp only [allocate, hv, ite_true, if_pos, Prod.mk.injEq] at halloc
      obtain ⟨-, hh, hw⟩ := halloc
      obtain rfl := Option.some.inj hh
      subst hw
      simp [describe, List.lookup]
  · simp [allocate, hv] at halloc

/-- Witness for C2: allocating `sampleDesc` in the empty state and
describing the returned handle gives back `sampleDesc`. -/
theorem allocate_describe_roundtrip_witness :
    describe sampleWorld 0 = some sampleDesc :=
  allocate_describe_roundtrip true sampleDesc emptyWorld .NO_ERROR 0
    sampleWorld (by decide)

/-- C3: for every handle and every usage mask containing at least one
usage0 flag outside the CPU-read/CPU-write subset, `lock` fails with
`BAD_VALUE` and produces no mapped address and no state change, whatever
the backend, the fence and the region. -/
theorem lock_non_cpu_usage_fails (ok : Bool) (w : World) (h : Nat)
    (usage0 : Nat) (fence : Int) (rect : Option ARect) (f : Usage0Flag)
    (hf : f ∉ cpuFlags) (hcontains : usage0 &&& flagValue f = flagValue f) :
    lock ok w h usage0 fence rect = (.BAD_VALUE, none, w) := by
  have hne : usage0 &&& cpuUsageMask ≠ usage0 := by
    cases f with
    | cpu_read => exact absurd (by decide) hf
    | cpu_read_often => exact absurd (by decide) hf
    | cpu_write => exact absurd (by decide) hf
    | cpu_write_often => exact absurd (by decide) hf
    | gpu_sampled_image =>
        exact land_mask_ne 10 (testBit_of_land_self hcontains 10 (by decide)) (by decide)
    | gpu_color_output =>
        exact land_mask_ne 11 (testBit_of_land_self hcontains 11 (by decide)) (by decide)
    | gpu_storage_image =>
        exact land_mask_ne 10 (testBit_of_land_self hcontains 10 (by decide)) (by decide)
    | gpu_cubemap =>
        exact land_mask_ne 13 (testBit_of_land_self hcontains 13 (by decide)) (by decide)
    | gpu_data_buffer =>
        exact land_mask_ne 14 (testBit_of_land_self hcontains 14 (by decide)) (by decide)
    | protected_content =>
        exact land_mask_ne 18 (testBit_of_land_self hcontains 18 (by decide)) (by decide)
    | sensor_direct_data =>
        exact land_mask_ne 29 (testBit_of_land_self hcontains 29 (by decide)) (by decide)
    | video_encode =>
        exact land_mask_ne 21 (testBit_of_land_self hcontains 21 (by decide)) (by decide)
  cases hl : List.lookup h w.buffers with
  | none => simp [lock, hl]
  | some buf => simp [lock, hl, hne]

/-- Witness for C3: locking the live sample handle with a mask holding
`GPU_SAMPLED_IMAGE` next to `CPU_READ` fails with `BAD_VALUE`, leaving
the state unchanged and no address. -/
theorem lock_non_cpu_usage_fails_witness :
    lock true sampleWorld 0
        (AHARDWAREBUFFER_USAGE0_GPU_SAMPLED_IMAGE |||
          AHARDWAREBUFFER_USAGE0_CPU_READ) 0 none =
      (.BAD_VALUE, none, sampleWorld) :=
  lock_non_cpu_usage_fails true sampleWorld 0
    (AHARDWAREBUFFER_USAGE0_GPU_SAMPLED_IMAGE |||
      AHARDWAREBUFFER_USAGE0_CPU_READ) 0 none
    .gpu_sampled_image (by decide) (by decide)

/-- C9: every descriptor whose reserved `usage1` field is nonzero is
malformed: `allocate` rejects it with `BAD_VALUE`, constructs no buffer
and leaves the state unchanged, whatever the backend. -/
theorem allocate_rejects_nonzero_usage1 (ok : Bool)
    (d : AHardwareBuffer_Desc) (w : World) (h1 : d.usage1 ≠ 0) :
    allocate ok d w = (.BAD_VALUE, none, w) := by
  have hv : validDesc d = false := by
    simp [validDesc, h1]
  simp [allocate, hv]

/-- Witness for C9: `sampleDesc` with `usage1 = 1` is rejected with
`BAD_VALUE` and no state change. -/
theorem allocate_rejects_nonzero_usage1_witness :
    allocate true
        { width := 4, height := 4, layers := 1,
          usage0 := AHARDWAREBUFFER_USAGE0_CPU_READ, usage1 := 1,
          format := AHARDWAREBUFFER_FORMAT_R8G8B8A8_UNORM } emptyWorld =
      (.BAD_VALUE, none, emptyWorld) :=
  allocate_rejects_nonzero_usage1 true
    { width := 4, height := 4, layers := 1,
      usage0 := AHARDWAREBUFFER_USAGE0_CPU_READ, usage1 := 1,
      format := AHARDWAREBUFFER_FORMAT_R8G8B8A8_UNORM } emptyWorld (by decide)

/-- C6: every BLOB descriptor accepted by `allocate` has height 1, and
the backend allocation backing the returned handle has exactly `width`
bytes. -/
theorem blob_height_one_width_is_byte_length (ok : Bool)
    (d : AHardwareBuffer_Desc) (w : World) (st : Status) (h : Nat)
    (w' : World) (halloc : allocate ok d w = (st, some h, w'))
    (hblob : d.format = AHARDWAREBUFFER_FORMAT_BLOB) :
    d.height = 1 ∧ (readBytes w' h).map List.length = some d.width := by
  by_cases hv : validDesc d
  · have hheight : d.height = 1 := by
      simp only [validDesc, Bool.and_eq_true, Bool.or_eq_true,
        decide_eq_true_eq] at hv
      rcases hv.2 with hne | hh
      · exact absurd hblob hne
      · exact hh
    cases ok with
    | false => simp [allocate, hv] at halloc
    | true =>
      simp only [allocate, hv, ite_true, if_pos, Prod.mk.injEq] at halloc
      obtain ⟨-, hh, hw⟩ := halloc
      obtain rfl := Option.some.inj hh
      subst hw
      refine ⟨hheight, ?_⟩
      simp [readBytes, List.lookup, allocSize, hblob]
  · simp [allocate, hv] at halloc

/-- Witness for C6: the 5-byte sample BLOB descriptor has height 1 and
its allocation holds exactly 5 bytes. -/
theorem blob_height_one_width_is_byte_length_witness :
    sampleBlobDesc.height = 1 ∧
    (readBytes blobWorld 0).map List.length = some sampleBlobDesc.width :=
  blob_height_one_width_is_byte_length true sampleBlobDesc emptyWorld
    .NO_ERROR 0 blobWorld (by decide) (by decide)

/-- C4: sending a live buffer over the channel and reconstructing it at
the other end succeeds; the receiver's `describe` returns a descriptor
equal to the sender's, the reconstructed SharedBuffer starts with
reference count 1 whatever the sender's count was, and it refers to the
same backend resource, so every byte written before the transfer is
visible through the received handle. -/
theorem send_receive_roundtrip (w : World) (h : Nat) (buf : SharedBuffer)
    (hlive : List.lookup h w.buffers = some buf) :
    sendOverChannel true w h =
      (.NO_ERROR, some { desc := buf.desc, backendId := buf.backendId }, w) ∧
    (receiveFromChannel true w
      (some { desc := buf.desc, backendId := buf.backendId })).1 = .NO_ERROR ∧
    (receiveFromChannel true w
      (some { desc := buf.desc, backendId := buf.backendId })).2.1 =
        some w.nextHandle ∧
    describe (receiveFromChannel true w
      (some { desc := buf.desc, backendId := buf.backendId })).2.2
        w.nextHandle = some buf.desc ∧
    List.lookup w.nextHandle (receiveFromChannel true w
      (some { desc := buf.desc, backendId := buf.backendId })).2.2.buffers =
        some { desc := buf.desc, backendId := buf.backendId, refCount := 1 } ∧
    readBytes (receiveFromChannel true w
      (some { desc := buf.desc, backendId := buf.backendId })).2.2
        w.nextHandle = readBytes w h := by
  refine ⟨by simp [sendOverChannel, hlive], by simp [receiveFromChannel],
    by simp [receiveFromChannel], ?_, ?_, ?_⟩
  · simp [receiveFromChannel, describe, List.lookup]
  · simp [receiveFromChannel, List.lookup]
  · simp [receiveFromChannel, readBytes, List.lookup, hlive]

/-- Witness for C4: round-tripping the live sample buffer: the receiver's
handle 1 describes to `sampleDesc` again. -/
theorem send_receive_roundtrip_witness :
    List.lookup 0 sampleWorld.buffers =
      some { desc := sampleDesc, backendId := 0, refCount := 1 } ∧
    describe (receiveFromChannel true sampleWorld
      (some { desc := sampleDesc, backendId := 0 })).2.2
        sampleWorld.nextHandle = some sampleDesc :=
  ⟨by decide,
    (send_receive_roundtrip sampleWorld 0
      { desc := sampleDesc, backendId := 0, refCount := 1 }
      (by decide)).2.2.2.1⟩

/-- C5: failure is atomic for every fallible operation: whenever
`allocate`, `lock`, `unlock`, `sendOverChannel` or `receiveFromChannel`
returns a non-success status, it hands out no handle, no address, no
message and no fence, and the observable state equals the state before
the call. -/
theorem failure_atomic :
    (∀ (ok : Bool) (d : AHardwareBuffer_Desc) (w : World),
      (allocate ok d w).1 ≠ .NO_ERROR →
      (allocate ok d w).2.1 = none ∧ (allocate ok d w).2.2 = w) ∧
    (∀ (ok : Bool) (w : World) (h : Nat) (u : Nat) (fence : Int)
        (rect : Option ARect),
      (lock ok w h u fence rect).1 ≠ .NO_ERROR →
      (lock ok w h u fence rect).2.1 = none ∧
        (lock ok w h u fence rect).2.2 = w) ∧
    (∀ (ok : Bool) (w : World) (h : Nat),
      (unlock ok w h).1 ≠ .NO_ERROR →
      (unlock ok w h).2.1 = none ∧ (unlock ok w h).2.2 = w) ∧
    (∀ (chOk : Bool) (w : World) (h : Nat),
      (sendOverChannel chOk w h).1 ≠ .NO_ERROR →
      (sendOverChannel chOk w h).2.1 = none ∧
        (sendOverChannel chOk w h).2.2 = w) ∧
    (∀ (chOk : Bool) (w : World) (msg : Option WireMessage),
      (receiveFromChannel chOk w msg).1 ≠ .NO_ERROR →
      (receiveFromChannel chOk w msg).2.1 = none ∧
        (receiveFromChannel chOk w msg).2.2 = w) := by
  refine ⟨?_, ?_, ?_, ?_, ?_⟩
  · intro ok d w hne
    by_cases hv : validDesc d
    · cases ok with
      | true => exact absurd (by simp [allocate, hv]) hne
      | false => simp [allocate, hv]
    · simp [allocate, hv]
  · intro ok w h u fence rect hne
    cases hl : List.lookup h w.buffers with
    | none => simp [lock, hl]
    | some buf =>
      by_cases hu : u &&& cpuUsageMask = u
      · cases ok with
        | true => exact absurd (by simp [lock, hl, hu]) hne
        | false => simp [lock, hl, hu]
      · simp [lock, hl, hu]
  · intro ok w h hne
    cases hl : List.lookup h w.buffers with
    | none => simp [unlock, hl]
    | some buf =>
      by_cases hm : h ∈ w.mappings
      · cases ok with
        | true => exact absurd (by simp [unlock, hl, hm]) hne
        | false => simp [unlock, hl, hm]
      · simp [unlock, hl, hm]
  · intro chOk w h hne
    cases hl : List.lookup h w.buffers with
    | none => simp [sendOverChannel, hl]
    | some buf =>
      cases chOk with
      | true => exact absurd (by simp [sendOverChannel, hl]) hne
      | false => simp [sendOverChannel, hl]
  · intro chOk w msg hne
    cases msg with
    | none => simp [receiveFromChannel]
    | some m =>
      cases chOk with
      | true => exact absurd (by simp [receiveFromChannel]) hne
      | false => simp [receiveFromChannel]

/-- Witness for C5: a backend refusal during `allocate` of the valid
sample descriptor is a non-success status, and the call hands out no
handle and leaves the empty state unchanged. -/
theorem failure_atomic_witness :
    (allocate false sampleDesc emptyWorld).1 ≠ .NO_ERROR ∧
    (allocate false sampleDesc emptyWorld).2.1 = none ∧
    (allocate false sampleDesc emptyWorld).2.2 = emptyWorld :=
  ⟨by decide, (failure_atomic.1 false sampleDesc emptyWorld (by decide)).1,
    (failure_atomic.1 false sampleDesc emptyWorld (by decide)).2⟩

/-- Writes confined to a region never touch a flat index outside it. -/
theorem applyWrites_outside (rect : ARect) (width : Nat) (x y : Nat)
    (hx : x < width) (hout : inRect rect x y = false)
    (hrect : rect.right ≤ width) :
    ∀ (ws : List PixelWrite) (bytes : List Nat),
      (∀ pw ∈ ws, inRect rect pw.x pw.y = true) →
      (applyWrites width ws bytes)[x + width * y]? =
        bytes[x + width * y]? := by
  intro ws
  induction ws with
  | nil => intro bytes _; rfl
  | cons pw ws ih =>
    intro bytes hconf
    have hpw := hconf pw (List.mem_cons_self pw ws)
    have hxy : x + width * y ≠ pw.x + width * pw.y := by
      intro heq
      have hpx : pw.x < width := by
        simp only [inRect, Bool.and_eq_true, decide_eq_true_eq] at hpw
        omega
      obtain ⟨hx1, hy1⟩ := flatIndex_inj hx hpx heq
      rw [hx1, hy1] at hout
      simp [hpw] at hout
    show (applyWrites width ws (writePixel width bytes pw))[x + width * y]? = _
    rw [ih (writePixel width bytes pw)
      (fun p hp => hconf p (List.mem_cons_of_mem pw hp))]
    simp only [writePixel]
    exact List.getElem?_set_ne (Ne.symm hxy)

/-- C8: a `lock` supplying a region, followed by caller writes confined
to that region and the matching `unlock`, leaves every byte outside the
region unchanged (the region lying within the buffer width). -/
theorem lock_region_writes_preserve_outside (rect : ARect) (width : Nat)
    (ws : List PixelWrite) (bytes : List Nat)
    (hconf : ∀ pw ∈ ws, inRect rect pw.x pw.y = true)
    (hrect : rect.right ≤ width) (x y : Nat) (hx : x < width)
    (hout : inRect rect x y = false) :
    (lockWritesUnlockContent width ws bytes)[x + width * y]? =
      bytes[x + width * y]? :=
  applyWrites_outside rect width x y hx hout hrect ws bytes hconf

/-- Witness for C8: one write at (1, 1) inside the region [1,3)×[1,3) of
a 4-wide buffer leaves the byte at (0, 0) unchanged. -/
theorem lock_region_writes_preserve_outside_witness :
    (lockWritesUnlockContent 4 [{ x := 1, y := 1, val := 9 }]
        (List.replicate 12 0))[0 + 4 * 0]? =
      (List.replicate 12 0)[0 + 4 * 0]? :=
  lock_region_writes_preserve_outside
    { left := 1, top := 1, right := 3, bottom := 3 } 4
    [{ x := 1, y := 1, val := 9 }] (List.replicate 12 0)
    (by decide) (by decide) 0 0 (by decide) (by decide)

/-- C7: each composite usage0 flag constant is the bitwise OR of its
components: `CPU_READ_OFTEN` contains all bits of `CPU_READ`,
`CPU_WRITE_OFTEN` contains all bits of `CPU_WRITE`, and
`GPU_STORAGE_IMAGE` equals `GPU_SAMPLED_IMAGE ||| GPU_COLOR_OUTPUT`;
consequently any mask containing an "often" flag also contains its base
flag. -/
theorem usage0_composite_flags :
    (AHARDWAREBUFFER_USAGE0_CPU_READ_OFTEN &&& AHARDWAREBUFFER_USAGE0_CPU_READ =
      AHARDWAREBUFFER_USAGE0_CPU_READ) ∧
    (AHARDWAREBUFFER_USAGE0_CPU_WRITE_OFTEN &&& AHARDWAREBUFFER_USAGE0_CPU_WRITE =
      AHARDWAREBUFFER_USAGE0_CPU_WRITE) ∧
    (AHARDWAREBUFFER_USAGE0_GPU_STORAGE_IMAGE =
      AHARDWAREBUFFER_USAGE0_GPU_SAMPLED_IMAGE |||
        AHARDWAREBUFFER_USAGE0_GPU_COLOR_OUTPUT) ∧
    (∀ m : Nat,
      m &&& AHARDWAREBUFFER_USAGE0_CPU_READ_OFTEN =
        AHARDWAREBUFFER_USAGE0_CPU_READ_OFTEN →
      m &&& AHARDWAREBUFFER_USAGE0_CPU_READ = AHARDWAREBUFFER_USAGE0_CPU_READ) ∧
    (∀ m : Nat,
      m &&& AHARDWAREBUFFER_USAGE0_CPU_WRITE_OFTEN =
        AHARDWAREBUFFER_USAGE0_CPU_WRITE_OFTEN →
      m &&& AHARDWAREBUFFER_USAGE0_CPU_WRITE = AHARDWAREBUFFER_USAGE0_CPU_WRITE) := by
  refine ⟨by decide, by decide, by decide, ?_, ?_⟩
  · exact fun m hm => land_superset (by decide) m hm
  · exact fun m hm => land_superset (by decide) m hm

/-- Witness for C7: the mask `CPU_READ_OFTEN` itself contains the "often"
flag, so by the theorem it contains the base `CPU_READ` flag. -/
theorem usage0_composite_flags_witness :
    AHARDWAREBUFFER_USAGE0_CPU_READ_OFTEN &&& AHARDWAREBUFFER_USAGE0_CPU_READ =
      AHARDWAREBUFFER_USAGE0_CPU_READ :=
  usage0_composite_flags.2.2.2.1 AHARDWAREBUFFER_USAGE0_CPU_READ_OFTEN (by decide)

/-- C10 counterexample: the OR of a set of flag constants does not
uniquely determine which flags were set, because `GPU_STORAGE_IMAGE` is
itself the OR of `GPU_SAMPLED_IMAGE` and `GPU_COLOR_OUTPUT`: these two
distinct sets of flag constants have the same OR. -/
theorem usage0_or_flag_sets_not_unique :
    orOfFlags [Usage0Flag.gpu_storage_image] =
      orOfFlags [Usage0Flag.gpu_sampled_image, Usage0Flag.gpu_color_output] ∧
    [Usage0Flag.gpu_storage_image] ≠
      [Usage0Flag.gpu_sampled_image, Usage0Flag.gpu_color_output] :=
  ⟨by decide, by decide⟩

/-- C10 (amended): the eleven bit positions used by the usage0 flag
constants are pairwise distinct and no two distinct flag constants are
equal (in particular an "often" flag differs from its base flag); the OR
of any set of the nine single-bit flag constants uniquely determines
which of them were set — testing the bit at each flag's position recovers
the selection — while sets that may involve the three composite constants
are not uniquely determined (see the counterexample). -/
theorem usage0_bits_distinct_atomic_or_determined :
    usage0BitPositions.Nodup ∧
    (allUsage0Flags.map flagValue).Nodup ∧
    (∀ r w s c cm db p sd v : Bool,
      decodeAtomicSelection (orOfAtomicSelection r w s c cm db p sd v) =
        (r, w, s, c, cm, db, p, sd, v)) := by
  refine ⟨by decide, by decide, ?_⟩
  intro r w s c cm db p sd v
  cases r <;> cases w <;> cases s <;> cases c <;> cases cm <;> cases db <;>
    cases p <;> cases sd <;> cases v <;> rfl

end HardwareBuffer
